import Mathlib

/-!
Verification development for the cardiovascular frontend prediction pipeline
(src/lib/api.ts). The TypeScript core is shallowly embedded: JS numbers are
modelled as rationals, optional fields as Option, the JS falsy-or operator
x || d as explicit helpers, and the stateful history store as explicit list
passing. Randomness (Math.random) and the clock (Date.now) are passed as
explicit parameters.
-/

set_option linter.unusedVariables false

namespace Cardio

/-- JS `x || d` on an optional rational: absent and 0 are falsy. -/
def jsOrQ (x : Option ℚ) (d : ℚ) : ℚ :=
  match x with
  | some v => if v = 0 then d else v
  | none => d

/-- JS `x || d` on an optional natural number: absent and 0 are falsy. -/
def jsOrNat (x : Option ℕ) (d : ℕ) : ℕ :=
  match x with
  | some v => if v = 0 then d else v
  | none => d

/-- JS `x || d` on an optional string: absent and the empty string are falsy. -/
def jsOrStr (x : Option String) (d : String) : String :=
  match x with
  | some s => if s = "" then d else s
  | none => d

/-- The gender enum of PredictionInput ("male" | "female" | "other"). -/
inductive Gender where
  | male
  | female
  | other
  deriving DecidableEq

/-- Frontend form data (src/types PredictionInput); optional fields are Option. -/
structure PredictionInput where
  age : ℕ
  gender : Gender
  cholesterol : ℚ
  bloodPressureSystolic : ℚ
  bloodPressureDiastolic : ℚ
  bmi : Option ℚ
  smoking : Bool
  diabetes : Bool
  familyHistory : Bool
  height : Option ℚ
  weight : Option ℚ
  deriving DecidableEq

/-- Backend schema (src/lib/api.ts lines 9-22). -/
structure BackendPredictionInput where
  age : ℕ
  gender : ℕ
  height : ℚ
  weight : ℚ
  ap_hi : ℚ
  ap_lo : ℚ
  cholesterol : ℕ
  gluc : ℕ
  smoke : ℕ
  alco : ℕ
  active : ℕ
  bmi : ℚ
  deriving DecidableEq

/-- The genderMap of transformToBackendFormat (lines 26-30): female 1, male 2,
other 2. The JS lookup fallback `|| 2` is unreachable for the three-value enum. -/
def genderMap : Gender → ℕ
  | .female => 1
  | .male => 2
  | .other => 2

/-- transformToBackendFormat (src/lib/api.ts lines 24-64). Math.round is the
Mathlib round on rationals (floor of x + 1/2, as in JS for these inputs);
`input.bmi || 25.0` and friends are the JS falsy-or, modelled by jsOrQ. -/
def transformToBackendFormat (input : PredictionInput) : BackendPredictionInput :=
  let cholesterolLevel : ℕ :=
    if input.cholesterol > 240 then 3
    else if input.cholesterol ≥ 200 then 2
    else 1
  let glucLevel : ℕ := if input.diabetes then 2 else 1
  let bmi : ℚ := jsOrQ input.bmi 25
  let height : ℚ := jsOrQ input.height 170
  let weight : ℚ := jsOrQ input.weight ((round (bmi * (height / 100) ^ 2) : ℤ) : ℚ)
  { age := input.age
    gender := genderMap input.gender
    height := height
    weight := weight
    ap_hi := input.bloodPressureSystolic
    ap_lo := input.bloodPressureDiastolic
    cholesterol := cholesterolLevel
    gluc := glucLevel
    smoke := if input.smoking then 1 else 0
    alco := 0
    active := 1
    bmi := bmi }

/-- A fixed concrete input used for witnesses and counterexamples. -/
def baseInput : PredictionInput :=
  { age := 40
    gender := .female
    cholesterol := 180
    bloodPressureSystolic := 120
    bloodPressureDiastolic := 80
    bmi := none
    smoking := false
    diabetes := false
    familyHistory := false
    height := none
    weight := none }

/-- Claim C5: transformToBackendFormat maps cholesterol (mg/dL) to the service
tier by the rule below-200 gives 1, 200-to-240 gives 2, above-240 gives 3; in
particular 199 gives 1, 200 gives 2, 240 gives 2, 241 gives 3. -/
theorem cholesterol_tiering :
    (∀ input : PredictionInput,
      (transformToBackendFormat input).cholesterol =
        if input.cholesterol < 200 then 1
        else if input.cholesterol ≤ 240 then 2
        else 3) ∧
    (transformToBackendFormat { baseInput with cholesterol := 199 }).cholesterol = 1 ∧
    (transformToBackendFormat { baseInput with cholesterol := 200 }).cholesterol = 2 ∧
    (transformToBackendFormat { baseInput with cholesterol := 240 }).cholesterol = 2 ∧
    (transformToBackendFormat { baseInput with cholesterol := 241 }).cholesterol = 3 := by
  refine ⟨?_, by decide, by decide, by decide, by decide⟩
  intro input
  simp only [transformToBackendFormat]
  split_ifs with h1 h2 h3 h4 h5 <;> first | rfl | linarith

/-- Claim C6: forward applies defaults deterministically: absent bmi becomes
25.0, absent height becomes 170 cm, absent weight is derived as
round(bmi times (height/100) squared) from the defaulted bmi and height, and an
input with the optional fields omitted produces the same ServiceInput as the
same input with the default values written explicitly. -/
theorem forward_defaults (input : PredictionInput) :
    (transformToBackendFormat { input with bmi := none }).bmi = 25 ∧
    (transformToBackendFormat { input with height := none }).height = 170 ∧
    (transformToBackendFormat { input with weight := none }).weight =
      ((round ((transformToBackendFormat { input with weight := none }).bmi *
        ((transformToBackendFormat { input with weight := none }).height / 100) ^ 2) : ℤ) : ℚ) ∧
    transformToBackendFormat { input with bmi := none, height := none, weight := none } =
      transformToBackendFormat
        { input with
          bmi := some 25, height := some 170,
          weight := some ((round ((25 : ℚ) * ((170 : ℚ) / 100) ^ 2) : ℤ) : ℚ) } := by
  refine ⟨rfl, rfl, rfl, ?_⟩
  simp only [transformToBackendFormat, jsOrQ]
  norm_num

/-- Risk level enum ("low" | "medium" | "high"). -/
inductive RiskLevel where
  | low
  | medium
  | high
  deriving DecidableEq

/-- A contributing risk factor (name, impact, description). -/
structure Factor where
  name : String
  impact : ℕ
  description : String
  deriving DecidableEq

/-- Decimal rendering of a natural number, modelling the JS template string
interpolation of the integer Date.now() value. -/
def natDecimal (n : ℕ) : String :=
  if n = 0 then "0" else String.mk (((Nat.digits 10 n).map Nat.digitChar).reverse)

/-- The frontend PredictionResult. createdAt (an ISO timestamp string in the
source) is modelled as the raw Date.now() clock reading. -/
structure PredictionResult where
  id : String
  userId : String
  input : PredictionInput
  riskScore : ℤ
  riskLevel : RiskLevel
  recommendations : List String
  factors : List Factor
  modelVersion : String
  createdAt : ℕ
  deriving DecidableEq

/-- JS `input.bmi && input.bmi > bound` (line 92): bmi present, truthy
(nonzero) and above the bound. -/
def bmiExceeds (x : Option ℚ) (bound : ℚ) : Bool :=
  match x with
  | some v => if v = 0 then false else decide (v > bound)
  | none => false

/-- transformBackendResponse (src/lib/api.ts lines 67-121). The single
Math.random() draw of the taken branch is the parameter rand (in [0,1) for a
real execution) and Date.now() is the parameter now. -/
def transformBackendResponse (risk : ℕ) (rand : ℚ) (now : ℕ)
    (input : PredictionInput) : PredictionResult :=
  let riskScore : ℤ := if risk = 0 then ⌊rand * 20⌋ + 5 else ⌊rand * 50⌋ + 35
  let riskLevel : RiskLevel :=
    if risk = 0 then .low else if riskScore > 50 then .high else .medium
  let recommendations : List String :=
    (if input.smoking then ["Consider smoking cessation programs"] else []) ++
    (if input.bloodPressureSystolic > 140 then ["Monitor blood pressure regularly"] else []) ++
    (if input.cholesterol > 200 then ["Consider dietary changes to reduce cholesterol"] else []) ++
    (if input.diabetes then ["Maintain blood glucose control"] else []) ++
    (if bmiExceeds input.bmi 25 then ["Consider weight management plan"] else [])
  let recommendations :=
    if recommendations = [] then ["Continue maintaining healthy lifestyle habits"]
    else recommendations
  let factors : List Factor :=
    (if input.smoking then
      [{ name := "Smoking", impact := 25,
         description := "Smoking significantly increases cardiovascular risk" }]
     else []) ++
    (if input.bloodPressureSystolic > 140 then
      [{ name := "High Blood Pressure", impact := 30,
         description := "Elevated systolic blood pressure" }]
     else []) ++
    (if input.cholesterol > 240 then
      [{ name := "High Cholesterol", impact := 20,
         description := "Cholesterol level above recommended range" }]
     else []) ++
    (if input.age > 55 then
      [{ name := "Age", impact := 15,
         description := "Age is a non-modifiable risk factor" }]
     else [])
  { id := "pred-" ++ natDecimal now
    userId := "user-1"
    input := input
    riskScore := riskScore
    riskLevel := riskLevel
    recommendations := recommendations
    factors := factors
    modelVersion := "v2.1.0"
    createdAt := now }

/-- The score and level guarantees of the mock score synthesis, as one
predicate over the two service outcomes. -/
def ScoreLevelSpec (rand : ℚ) (now : ℕ) (input : PredictionInput) : Prop :=
  (5 ≤ (transformBackendResponse 0 rand now input).riskScore ∧
   (transformBackendResponse 0 rand now input).riskScore < 25 ∧
   (transformBackendResponse 0 rand now input).riskLevel = RiskLevel.low) ∧
  (35 ≤ (transformBackendResponse 1 rand now input).riskScore ∧
   (transformBackendResponse 1 rand now input).riskScore < 85 ∧
   (transformBackendResponse 1 rand now input).riskLevel =
     (if (transformBackendResponse 1 rand now input).riskScore > 50
      then RiskLevel.high else RiskLevel.medium)) ∧
  ((transformBackendResponse 1 rand now input).riskLevel = RiskLevel.medium →
    35 ≤ (transformBackendResponse 1 rand now input).riskScore ∧
    (transformBackendResponse 1 rand now input).riskScore ≤ 50) ∧
  ((transformBackendResponse 1 rand now input).riskLevel = RiskLevel.high →
    50 < (transformBackendResponse 1 rand now input).riskScore ∧
    (transformBackendResponse 1 rand now input).riskScore ≤ 85)

/-- Claim C7: for any outcome of the random draw in [0,1), risk 0 yields a
riskScore in [5,25) with level low, and risk 1 yields a riskScore in [35,85)
with level high exactly when the score exceeds 50 and medium otherwise, so the
level is consistent with the score (low in [5,25), medium in [35,50], high in
(50,85]). -/
theorem risk_score_level (input : PredictionInput) (rand : ℚ) (now : ℕ)
    (h0 : 0 ≤ rand) (h1 : rand < 1) : ScoreLevelSpec rand now input := by
  have h20a : (0 : ℤ) ≤ ⌊rand * 20⌋ :=
    Int.floor_nonneg.mpr (by nlinarith)
  have h20b : ⌊rand * 20⌋ < 20 :=
    Int.floor_lt.mpr (by push_cast; nlinarith)
  have h50a : (0 : ℤ) ≤ ⌊rand * 50⌋ :=
    Int.floor_nonneg.mpr (by nlinarith)
  have h50b : ⌊rand * 50⌋ < 50 :=
    Int.floor_lt.mpr (by push_cast; nlinarith)
  unfold ScoreLevelSpec
  simp only [transformBackendResponse]
  norm_num
  refine ⟨⟨by omega, by omega⟩, ⟨by omega, by omega⟩, ?_, ?_⟩
  · intro hmed
    by_cases hgt : 50 < ⌊rand * 50⌋ + 35
    · exact absurd (hmed hgt) (by simp)
    · omega
  · intro hhigh
    by_cases hgt : 50 < ⌊rand * 50⌋ + 35
    · omega
    · exact absurd (hhigh (by omega)) (by simp)

/-- Witness for risk_score_level at rand one half. -/
theorem risk_score_level_witness :
    ((0 : ℚ) ≤ 1 / 2 ∧ (1 / 2 : ℚ) < 1) ∧ ScoreLevelSpec (1 / 2) 0 baseInput :=
  ⟨⟨by norm_num, by norm_num⟩,
   risk_score_level baseInput (1 / 2) 0 (by norm_num) (by norm_num)⟩

/-- The recommendations of a prediction result, as a function of the pipeline
parameters. -/
def recommendationsOf (risk : ℕ) (rand : ℚ) (now : ℕ) (input : PredictionInput) : List String :=
  (transformBackendResponse risk rand now input).recommendations

/-- An if-guarded singleton is a sublist of the singleton. -/
lemma ite_singleton_sublist {α : Type} (c : Prop) [Decidable c] (a : α) :
    (if c then [a] else []).Sublist [a] := by
  split_ifs
  · exact List.Sublist.refl _
  · exact List.nil_sublist _

/-- The bmi guard of rule five holds exactly when a bmi above 25 was provided
(the JS truthiness check on bmi is subsumed, since 0 is not above 25). -/
lemma bmiExceeds_iff (x : Option ℚ) :
    bmiExceeds x 25 = true ↔ ∃ b, x = some b ∧ b > 25 := by
  cases x with
  | none => simp [bmiExceeds]
  | some v =>
    by_cases hv : v = 0
    · simp [bmiExceeds, hv]
    · simp [bmiExceeds, hv]

/-- Claim C8: the recommendation list is built from five independent rules in
fixed order, each contributing at most one line (membership of each line is
equivalent to its guard), the fallback line appears exactly when none of the
five rules fired, and the list is always an order-respecting sublist of the
five rule lines unless it is the lone fallback line. -/
theorem recommendation_rules (risk : ℕ) (rand : ℚ) (now : ℕ) (input : PredictionInput) :
    (((("Consider smoking cessation programs" ∈ recommendationsOf risk rand now input) ↔
        input.smoking = true) ∧
      (("Monitor blood pressure regularly" ∈ recommendationsOf risk rand now input) ↔
        input.bloodPressureSystolic > 140) ∧
      (("Consider dietary changes to reduce cholesterol" ∈ recommendationsOf risk rand now input) ↔
        input.cholesterol > 200) ∧
      (("Maintain blood glucose control" ∈ recommendationsOf risk rand now input) ↔
        input.diabetes = true) ∧
      (("Consider weight management plan" ∈ recommendationsOf risk rand now input) ↔
        bmiExceeds input.bmi 25 = true) ∧
      (("Continue maintaining healthy lifestyle habits" ∈ recommendationsOf risk rand now input) ↔
        (input.smoking = false ∧ ¬(input.bloodPressureSystolic > 140) ∧
         ¬(input.cholesterol > 200) ∧ input.diabetes = false ∧
         bmiExceeds input.bmi 25 = false))) ∧
     (bmiExceeds input.bmi 25 = true ↔ ∃ b, input.bmi = some b ∧ b > 25)) ∧
    ((recommendationsOf risk rand now input).Sublist
        ["Consider smoking cessation programs", "Monitor blood pressure regularly",
         "Consider dietary changes to reduce cholesterol", "Maintain blood glucose control",
         "Consider weight management plan"] ∨
      recommendationsOf risk rand now input =
        ["Continue maintaining healthy lifestyle habits"]) := by
  refine ⟨⟨?_, bmiExceeds_iff input.bmi⟩, ?_⟩
  · by_cases hs : input.smoking <;>
    by_cases hb : input.bloodPressureSystolic > 140 <;>
    by_cases hc : input.cholesterol > 200 <;>
    by_cases hd : input.diabetes <;>
    by_cases hm : bmiExceeds input.bmi 25 <;>
    simp_all [recommendationsOf, transformBackendResponse]
  · simp only [recommendationsOf, transformBackendResponse]
    split_ifs <;> first | (right; rfl) | (left; decide)

/-- savePredictionToHistory (src/lib/api.ts lines 124-130): prepend, then keep
only the first 50 entries. The localStorage round trip is modelled as explicit
list state passing. -/
def savePredictionToHistory (prediction : PredictionResult)
    (history : List PredictionResult) : List PredictionResult :=
  (prediction :: history).take 50

/-- Taking n of an append absorbs an inner take n of the right part. -/
lemma take_append_take {α : Type} (l x : List α) (n : ℕ) :
    (l ++ x.take n).take n = (l ++ x).take n := by
  rw [List.take_append_eq_append_take, List.take_append_eq_append_take, List.take_take]
  congr 1
  exact congrArg x.take (Nat.min_eq_left (Nat.sub_le _ _))

/-- Folding insertions over any starting state of size at most 50 yields the
first 50 of the reversed insertion sequence in front of that state. -/
lemma foldl_save_eq (ps : List PredictionResult) :
    ∀ acc : List PredictionResult, acc.length ≤ 50 →
      ps.foldl (fun h p => savePredictionToHistory p h) acc = (ps.reverse ++ acc).take 50 := by
  induction ps with
  | nil =>
    intro acc hacc
    simpa using (List.take_of_length_le hacc).symm
  | cons p ps ih =>
    intro acc hacc
    rw [List.foldl_cons, ih (savePredictionToHistory p acc) (List.length_take_le _ _)]
    show (ps.reverse ++ (p :: acc).take 50).take 50 = _
    rw [take_append_take, List.reverse_cons, List.append_assoc]
    rfl

/-- Claim C1: the history store is newest-first and capped at 50; after any 60
sequential insertions into an empty store, exactly 50 entries remain, namely
the 50 most recently inserted, in reverse insertion order. -/
theorem history_cap_invariant (ps : List PredictionResult) (hlen : ps.length = 60) :
    ps.foldl (fun h p => savePredictionToHistory p h) [] = ps.reverse.take 50 ∧
    (ps.foldl (fun h p => savePredictionToHistory p h) []).length = 50 := by
  have h := foldl_save_eq ps [] (by simp)
  rw [List.append_nil] at h
  refine ⟨h, ?_⟩
  rw [h, List.length_take, List.length_reverse, hlen]
  decide

/-- A deterministic sample result used to instantiate store lemmas. -/
def sampleResult (k : ℕ) : PredictionResult := transformBackendResponse 0 0 k baseInput

/-- Witness for history_cap_invariant: 60 concrete insertions. -/
theorem history_cap_invariant_witness :
    ((List.range 60).map sampleResult).length = 60 ∧
    (((List.range 60).map sampleResult).foldl (fun h p => savePredictionToHistory p h) [] =
        ((List.range 60).map sampleResult).reverse.take 50 ∧
      (((List.range 60).map sampleResult).foldl
          (fun h p => savePredictionToHistory p h) []).length = 50) :=
  ⟨by simp, history_cap_invariant _ (by simp)⟩

/-- The riskLevel filter value ("low" | "medium" | "high" | "all"). -/
inductive RiskFilter where
  | low
  | medium
  | high
  | all
  deriving DecidableEq

/-- HistoryFilters (src/types): all fields optional query parameters. -/
structure HistoryFilters where
  riskLevel : Option RiskFilter
  page : Option ℕ
  limit : Option ℕ
  deriving DecidableEq

/-- PaginatedResponse (src/types). -/
structure PaginatedResponse (α : Type) where
  data : List α
  total : ℕ
  page : ℕ
  limit : ℕ
  hasMore : Bool
  deriving DecidableEq

/-- The strict equality test of a result level against a filter value (the JS
triple-equals on the level strings). -/
def matchesRisk (level : RiskLevel) (f : RiskFilter) : Bool :=
  match level, f with
  | .low, .low => true
  | .medium, .medium => true
  | .high, .high => true
  | _, _ => false

/-- The filter step of getPredictionHistory (lines 271-273): filter by exact
riskLevel match unless the filter value is "all" or absent. -/
def filteredHistory (stored : List PredictionResult) (filters : Option HistoryFilters) :
    List PredictionResult :=
  match filters.bind HistoryFilters.riskLevel with
  | some rl => if rl = .all then stored else stored.filter fun p => matchesRisk p.riskLevel rl
  | none => stored

/-- getPredictionHistory (src/lib/api.ts lines 266-287), as a pure function of
the stored history. page and limit default to 1 and 10 through the JS falsy-or;
slice(startIndex, startIndex+limit) is drop then take. -/
def getPredictionHistory (stored : List PredictionResult) (filters : Option HistoryFilters) :
    PaginatedResponse PredictionResult :=
  let history := filteredHistory stored filters
  let page := jsOrNat (filters.bind HistoryFilters.page) 1
  let limit := jsOrNat (filters.bind HistoryFilters.limit) 10
  let startIndex := (page - 1) * limit
  let paginatedData := (history.drop startIndex).take limit
  { data := paginatedData
    total := history.length
    page := page
    limit := limit
    hasMore := decide (startIndex + limit < history.length) }

/-- A deterministic high-risk sample result (risk 1 with a large draw gives
score 80, level high). -/
def highResult (k : ℕ) : PredictionResult := transformBackendResponse 1 (9 / 10) k baseInput

/-- A concrete store of 25 results: entries 0 to 9 at level high, entries 10 to
24 at level low. -/
def store25 : List PredictionResult :=
  (List.range 10).map highResult ++ (List.range 15).map (fun k => sampleResult (10 + k))

lemma highResult_level (k : ℕ) : (highResult k).riskLevel = .high := by
  have h45 : ((9 : ℚ) / 10 * 50) = 45 := by norm_num
  simp only [highResult, transformBackendResponse, h45]
  norm_num

lemma sampleResult_level (k : ℕ) : (sampleResult k).riskLevel = .low := rfl

lemma filtered_store25 :
    filteredHistory store25
        (some { riskLevel := some .high, page := some 2, limit := some 4 }) =
      (List.range 10).map highResult := by
  show store25.filter (fun p => matchesRisk p.riskLevel .high) = _
  rw [store25, List.filter_append]
  rw [List.filter_eq_self.mpr ?ha, List.filter_eq_nil_iff.mpr ?hb, List.append_nil]
  case ha =>
    intro p hp
    obtain ⟨k, hk, rfl⟩ := List.mem_map.mp hp
    rw [highResult_level]
    rfl
  case hb =>
    intro p hp
    obtain ⟨k, hk, rfl⟩ := List.mem_map.mp hp
    rw [sampleResult_level]
    simp [matchesRisk]

lemma getHistory_store25 :
    getPredictionHistory store25
        (some { riskLevel := some .high, page := some 2, limit := some 4 }) =
      { data := [highResult 4, highResult 5, highResult 6, highResult 7]
        total := 10
        page := 2
        limit := 4
        hasMore := true } := by
  simp only [getPredictionHistory, filtered_store25]
  norm_num [jsOrNat]
  rfl

/-- Claim C2: list filters by exact riskLevel match unless the filter is all or
absent, then returns data = slice(startIndex, startIndex+limit) with
startIndex = (page-1)*limit, total equal to the filtered count, and
hasMore = (startIndex+limit < filteredTotal); with 25 stored results of which
10 are high, list with riskLevel high, page 2, limit 4 returns 4 items,
total 10, hasMore true. -/
theorem list_filter_paginate :
    (∀ (stored : List PredictionResult) (filters : Option HistoryFilters),
      getPredictionHistory stored filters =
        { data := ((filteredHistory stored filters).drop
              ((jsOrNat (filters.bind HistoryFilters.page) 1 - 1) *
                jsOrNat (filters.bind HistoryFilters.limit) 10)).take
              (jsOrNat (filters.bind HistoryFilters.limit) 10)
          total := (filteredHistory stored filters).length
          page := jsOrNat (filters.bind HistoryFilters.page) 1
          limit := jsOrNat (filters.bind HistoryFilters.limit) 10
          hasMore := decide
            ((jsOrNat (filters.bind HistoryFilters.page) 1 - 1) *
                jsOrNat (filters.bind HistoryFilters.limit) 10 +
                jsOrNat (filters.bind HistoryFilters.limit) 10 <
              (filteredHistory stored filters).length) }) ∧
    store25.length = 25 ∧
    (filteredHistory store25
      (some { riskLevel := some .high, page := some 2, limit := some 4 })).length = 10 ∧
    (getPredictionHistory store25
        (some { riskLevel := some .high, page := some 2, limit := some 4 })).data =
      [highResult 4, highResult 5, highResult 6, highResult 7] ∧
    (getPredictionHistory store25
        (some { riskLevel := some .high, page := some 2, limit := some 4 })).data.length = 4 ∧
    (getPredictionHistory store25
        (some { riskLevel := some .high, page := some 2, limit := some 4 })).total = 10 ∧
    (getPredictionHistory store25
        (some { riskLevel := some .high, page := some 2, limit := some 4 })).hasMore = true := by
  refine ⟨fun stored filters => rfl, by simp [store25], ?_, ?_, ?_, ?_, ?_⟩
  · rw [filtered_store25]
    simp
  · rw [getHistory_store25]
  · rw [getHistory_store25]
    rfl
  · rw [getHistory_store25]
  · rw [getHistory_store25]

/-- Headers built by ApiClient.request (src/lib/api.ts lines 147-152): JSON
content headers, then the conditional bearer header through the JS truthiness
guard on the token read from the key-value store (absent or empty token means
no Authorization entry), then the caller-supplied extra headers. -/
def requestHeaders (token : Option String) (extraHeaders : List (String × String)) :
    List (String × String) :=
  [("Content-Type", "application/json"), ("Accept", "application/json")] ++
    (match token with
     | some t => if t = "" then [] else [("Authorization", "Bearer " ++ t)]
     | none => []) ++
    extraHeaders

/-- An outbound HTTP request; the JSON body is modelled as the backend payload
itself. -/
structure HttpRequest where
  url : String
  method : String
  headers : List (String × String)
  body : Option BackendPredictionInput
  deriving DecidableEq

/-- The outbound request built by createPrediction (src/lib/api.ts lines
234-240): a raw fetch that sets only the JSON content type. The token accessor
is never consulted on this path, so the token parameter is unused. -/
def createPredictionRequest (token : Option String) (input : PredictionInput) : HttpRequest :=
  { url := "/api/backend/predict"
    method := "POST"
    headers := [("Content-Type", "application/json")]
    body := some (transformToBackendFormat input) }

/-- The failure shapes of the pipeline: the structured error thrown by
ApiClient.request (message, code, statusCode) and the plain Error thrown by
createPrediction (message only). -/
inductive ApiError where
  | serviceError (message : String) (code : String) (statusCode : ℕ)
  | plainError (message : String)
  deriving DecidableEq

/-- Whether an error carries the ServiceError shape (code and statusCode). -/
def ApiError.isService : ApiError → Bool
  | .serviceError _ _ _ => true
  | .plainError _ => false

/-- The parsed JSON error body fields inspected by ApiClient.request. -/
structure ErrorBody where
  message : Option String
  detail : Option String
  code : Option String
  deriving DecidableEq

/-- The error built by ApiClient.request on a non-ok response (lines 164-172):
message = body.message or body.detail or "Request failed", code = body.code or
"UNKNOWN_ERROR", through the JS falsy-or; an unparseable body acts as the
empty object. -/
def requestError (status : ℕ) (body : Option ErrorBody) : ApiError :=
  let e := body.getD { message := none, detail := none, code := none }
  .serviceError (jsOrStr e.message (jsOrStr e.detail "Request failed"))
    (jsOrStr e.code "UNKNOWN_ERROR") status

/-- The JSON response of the remote classifier. -/
structure BackendResponse where
  risk : ℕ
  deriving DecidableEq

/-- The observable outcome of the fetch inside createPrediction: a parsed JSON
response, or a non-ok status with the raw response text. -/
inductive FetchOutcome where
  | success (response : BackendResponse)
  | httpError (status : ℕ) (errorText : String)
  deriving DecidableEq

/-- The error message built by createPrediction on a non-ok response (line
247): the template `Backend error: ` followed by the response text, or by the
numeric status when the text is empty (the JS falsy-or inside the template). -/
def backendErrorMessage (status : ℕ) (errorText : String) : String :=
  "Backend error: " ++ (if errorText = "" then natDecimal status else errorText)

/-- createPrediction (src/lib/api.ts lines 226-264) as a state transformer on
the history store: on a non-ok response it throws a plain Error and leaves the
history untouched; on success it transforms the response and saves the result
to the history. -/
def createPrediction (outcome : FetchOutcome) (rand : ℚ) (now : ℕ)
    (input : PredictionInput) (history : List PredictionResult) :
    Except ApiError PredictionResult × List PredictionResult :=
  match outcome with
  | .httpError status errorText =>
    (Except.error (.plainError (backendErrorMessage status errorText)), history)
  | .success response =>
    let result := transformBackendResponse response.risk rand now input
    (Except.ok result, savePredictionToHistory result history)

/-- Claim C3 counterexample: with a token available under the key token, the
outbound POST of createPrediction still carries no Authorization header, even
though the request helper would have attached one for the same token. -/
theorem createPrediction_auth_counterexample :
    (createPredictionRequest (some "tok123") baseInput).headers.lookup "Authorization" = none ∧
    (requestHeaders (some "tok123") []).lookup "Authorization" = some "Bearer tok123" := by
  exact ⟨rfl, rfl⟩

/-- Claim C3 as amended: the POST of createPrediction carries only the JSON
content type header and never an Authorization header, whatever the token
state; the generic request helper, which createPrediction does not use, is
what attaches Bearer auth for a present nonempty token and omits it for an
absent one. -/
theorem createPrediction_no_auth_header (token : Option String) (input : PredictionInput)
    (t : String) (ht : t ≠ "") :
    (createPredictionRequest token input).headers = [("Content-Type", "application/json")] ∧
    (createPredictionRequest token input).headers.lookup "Authorization" = none ∧
    (requestHeaders none []).lookup "Authorization" = none ∧
    (requestHeaders (some t) []).lookup "Authorization" = some ("Bearer " ++ t) := by
  refine ⟨rfl, rfl, rfl, ?_⟩
  simp [requestHeaders, ht, List.lookup]

/-- Witness for createPrediction_no_auth_header at a concrete token. -/
theorem createPrediction_no_auth_header_witness :
    ("tok" : String) ≠ "" ∧
    ((createPredictionRequest (some "tok") baseInput).headers =
        [("Content-Type", "application/json")] ∧
      (createPredictionRequest (some "tok") baseInput).headers.lookup "Authorization" = none ∧
      (requestHeaders none []).lookup "Authorization" = none ∧
      (requestHeaders (some "tok") []).lookup "Authorization" = some ("Bearer " ++ "tok")) :=
  ⟨by decide, createPrediction_no_auth_header (some "tok") baseInput "tok" (by decide)⟩

/-- Claim C4 counterexample: on a non-ok response, createPrediction fails with
a plain Error built from the raw response text, not with the structured
ServiceError shape, although the history is indeed left unmodified. -/
theorem createPrediction_error_counterexample :
    (createPrediction (.httpError 500 "boom") 0 0 baseInput [sampleResult 0]) =
      (Except.error (.plainError "Backend error: boom"), [sampleResult 0]) ∧
    (ApiError.plainError "Backend error: boom").isService = false := by
  exact ⟨rfl, rfl⟩

/-- Claim C4 as amended: on a non-success status createPrediction fails with a
plain Error whose message is the template over the raw response text (or the
status when the text is empty), carrying no code or statusCode, and the
history store is left unmodified; the ServiceError normalization with
message and code extracted from the body when present and defaulted otherwise
is implemented by ApiClient.request, which createPrediction does not use. -/
theorem createPrediction_error_path (status : ℕ) (errorText : String) (rand : ℚ) (now : ℕ)
    (input : PredictionInput) (history : List PredictionResult) :
    createPrediction (.httpError status errorText) rand now input history =
      (Except.error (.plainError ("Backend error: " ++
        (if errorText = "" then natDecimal status else errorText))), history) ∧
    (createPrediction (.httpError status errorText) rand now input history).2 = history ∧
    (∀ body : Option ErrorBody, (requestError status body).isService = true) ∧
    requestError status
        (some { message := some "msg", detail := some "det", code := some "CODE" }) =
      .serviceError "msg" "CODE" status ∧
    requestError status (some { message := none, detail := some "det", code := none }) =
      .serviceError "det" "UNKNOWN_ERROR" status ∧
    requestError status none = .serviceError "Request failed" "UNKNOWN_ERROR" status := by
  exact ⟨rfl, rfl, fun body => rfl, rfl, rfl, rfl⟩

/-- The round trip scenario input of the spec. -/
def c9input : PredictionInput :=
  { age := 60
    gender := .male
    cholesterol := 260
    bloodPressureSystolic := 150
    bloodPressureDiastolic := 95
    bmi := some 27
    smoking := true
    diabetes := true
    familyHistory := false
    height := none
    weight := none }

/-- The four factors fired by the round trip scenario input. -/
def c9factors : List Factor :=
  [{ name := "Smoking", impact := 25,
     description := "Smoking significantly increases cardiovascular risk" },
   { name := "High Blood Pressure", impact := 30,
     description := "Elevated systolic blood pressure" },
   { name := "High Cholesterol", impact := 20,
     description := "Cholesterol level above recommended range" },
   { name := "Age", impact := 15,
     description := "Age is a non-modifiable risk factor" }]

/-- Claim C9: on the round trip scenario input, forward produces exactly the
expected service payload (cholesterol tier 3, gluc 2, smoke 1, ap values
passed through, gender 2, bmi 27, default height 170 and derived weight 78),
and backward at risk 1 with any draw in [0,1) gives a level in medium or high,
a score in [35,85), and a factors list containing Smoking impact 25, High
Blood Pressure impact 30, High Cholesterol impact 20 and Age impact 15. -/
theorem round_trip_scenario (rand : ℚ) (now : ℕ) (h0 : 0 ≤ rand) (h1 : rand < 1) :
    transformToBackendFormat c9input =
      { age := 60, gender := 2, height := 170, weight := 78, ap_hi := 150, ap_lo := 95,
        cholesterol := 3, gluc := 2, smoke := 1, alco := 0, active := 1, bmi := 27 } ∧
    ((transformBackendResponse 1 rand now c9input).riskLevel = RiskLevel.medium ∨
      (transformBackendResponse 1 rand now c9input).riskLevel = RiskLevel.high) ∧
    35 ≤ (transformBackendResponse 1 rand now c9input).riskScore ∧
    (transformBackendResponse 1 rand now c9input).riskScore < 85 ∧
    (transformBackendResponse 1 rand now c9input).factors = c9factors ∧
    { name := "Smoking", impact := 25,
      description := "Smoking significantly increases cardiovascular risk" } ∈
      (transformBackendResponse 1 rand now c9input).factors ∧
    { name := "High Blood Pressure", impact := 30,
      description := "Elevated systolic blood pressure" } ∈
      (transformBackendResponse 1 rand now c9input).factors ∧
    { name := "High Cholesterol", impact := 20,
      description := "Cholesterol level above recommended range" } ∈
      (transformBackendResponse 1 rand now c9input).factors ∧
    { name := "Age", impact := 15,
      description := "Age is a non-modifiable risk factor" } ∈
      (transformBackendResponse 1 rand now c9input).factors := by
  have hf : (transformBackendResponse 1 rand now c9input).factors = c9factors := rfl
  have h50a : (0 : ℤ) ≤ ⌊rand * 50⌋ := Int.floor_nonneg.mpr (by nlinarith)
  have h50b : ⌊rand * 50⌋ < 50 := Int.floor_lt.mpr (by push_cast; nlinarith)
  refine ⟨?_, ?_, ?_, ?_, hf, ?_, ?_, ?_, ?_⟩
  · norm_num [transformToBackendFormat, c9input, jsOrQ, genderMap, round_eq, Int.floor_eq_iff]
  · by_cases hgt : (50 : ℤ) < ⌊rand * 50⌋ + 35
    · right
      show (if (1 : ℕ) = 0 then RiskLevel.low
            else if ⌊rand * 50⌋ + 35 > 50 then RiskLevel.high else RiskLevel.medium) = _
      simp [hgt]
    · left
      show (if (1 : ℕ) = 0 then RiskLevel.low
            else if ⌊rand * 50⌋ + 35 > 50 then RiskLevel.high else RiskLevel.medium) = _
      simp [hgt]
  · show (35 : ℤ) ≤ ⌊rand * 50⌋ + 35
    omega
  · show ⌊rand * 50⌋ + 35 < 85
    omega
  · rw [hf]; simp [c9factors]
  · rw [hf]; simp [c9factors]
  · rw [hf]; simp [c9factors]
  · rw [hf]; simp [c9factors]

/-- Witness for round_trip_scenario at rand one half. -/
theorem round_trip_scenario_witness :
    ((0 : ℚ) ≤ 1 / 2 ∧ (1 / 2 : ℚ) < 1) ∧
    transformToBackendFormat c9input =
      { age := 60, gender := 2, height := 170, weight := 78, ap_hi := 150, ap_lo := 95,
        cholesterol := 3, gluc := 2, smoke := 1, alco := 0, active := 1, bmi := 27 } ∧
    ((transformBackendResponse 1 (1 / 2) 0 c9input).riskLevel = RiskLevel.medium ∨
      (transformBackendResponse 1 (1 / 2) 0 c9input).riskLevel = RiskLevel.high) :=
  ⟨⟨by norm_num, by norm_num⟩,
   (round_trip_scenario (1 / 2) 0 (by norm_num) (by norm_num)).1,
   (round_trip_scenario (1 / 2) 0 (by norm_num) (by norm_num)).2.1⟩

lemma digitChar_sub_48 {d : ℕ} (hd : d < 10) : (Nat.digitChar d).toNat - 48 = d := by
  interval_cases d <;> rfl

/-- Mapping a digit list through digitChar is undone by subtracting 48 from the
code points. -/
lemma map_digitChar_digits (a : ℕ) :
    ((Nat.digits 10 a).map Nat.digitChar).map (fun c => c.toNat - 48) = Nat.digits 10 a := by
  rw [List.map_map]
  have h : ∀ d ∈ Nat.digits 10 a,
      ((fun c : Char => c.toNat - 48) ∘ Nat.digitChar) d = id d :=
    fun d hd => digitChar_sub_48 (Nat.digits_lt_base (by norm_num) hd)
  rw [List.map_congr_left h, List.map_id]

lemma map_digitChar_inj {a b : ℕ}
    (h : (Nat.digits 10 a).map Nat.digitChar = (Nat.digits 10 b).map Nat.digitChar) :
    a = b := by
  have h2 := congrArg (List.map fun c => c.toNat - 48) h
  rw [map_digitChar_digits, map_digitChar_digits] at h2
  exact Nat.digits_inj_iff.mp h2

/-- The decimal rendering of a natural number determines the number. -/
lemma natDecimal_injective {m n : ℕ} (h : natDecimal m = natDecimal n) : m = n := by
  unfold natDecimal at h
  by_cases hm : m = 0 <;> by_cases hn : n = 0
  · omega
  · exfalso
    rw [if_pos hm, if_neg hn] at h
    have hd := congrArg String.data h
    have hd2 : ((Nat.digits 10 n).map Nat.digitChar).reverse = ["0".data.head (by decide)] := by
      simpa using hd.symm
    have hd3 := congrArg List.reverse hd2
    rw [List.reverse_reverse] at hd3
    have hd4 := congrArg (List.map fun c => c.toNat - 48) hd3
    rw [map_digitChar_digits] at hd4
    have hn0 : n = Nat.ofDigits 10 (Nat.digits 10 n) := (Nat.ofDigits_digits 10 n).symm
    rw [hd4] at hn0
    simp [Nat.ofDigits] at hn0
    exact hn hn0
  · exfalso
    rw [if_neg hm, if_pos hn] at h
    have hd := congrArg String.data h.symm
    have hd2 : ((Nat.digits 10 m).map Nat.digitChar).reverse = ["0".data.head (by decide)] := by
      simpa using hd.symm
    have hd3 := congrArg List.reverse hd2
    rw [List.reverse_reverse] at hd3
    have hd4 := congrArg (List.map fun c => c.toNat - 48) hd3
    rw [map_digitChar_digits] at hd4
    have hm0 : m = Nat.ofDigits 10 (Nat.digits 10 m) := (Nat.ofDigits_digits 10 m).symm
    rw [hd4] at hm0
    simp [Nat.ofDigits] at hm0
    exact hm hm0
  · rw [if_neg hm, if_neg hn] at h
    have hd := congrArg String.data h
    simp only [String.data] at hd
    exact map_digitChar_inj (List.reverse_injective hd)

/-- Claim C10 counterexample: two distinct results, each produced by the
success path of createPrediction, created within the same Date.now()
millisecond, carry the same id string. -/
theorem prediction_id_counterexample :
    (createPrediction (.success { risk := 0 }) 0 7 baseInput []).1 =
      Except.ok (transformBackendResponse 0 0 7 baseInput) ∧
    (createPrediction (.success { risk := 1 }) (1 / 2) 7 c9input []).1 =
      Except.ok (transformBackendResponse 1 (1 / 2) 7 c9input) ∧
    transformBackendResponse 0 0 7 baseInput ≠ transformBackendResponse 1 (1 / 2) 7 c9input ∧
    (transformBackendResponse 0 0 7 baseInput).id =
      (transformBackendResponse 1 (1 / 2) 7 c9input).id := by
  refine ⟨rfl, rfl, ?_, rfl⟩
  intro h
  have h2 := congrArg (fun r => r.input.age) h
  simp [transformBackendResponse, baseInput, c9input] at h2

/-- Claim C10 as amended: ids are injective in the creation timestamp, so any
two results created in distinct Date.now() milliseconds carry distinct ids
(while same-millisecond creations collide, as the counterexample shows). -/
theorem prediction_id_distinct_times (risk1 risk2 : ℕ) (rand1 rand2 : ℚ)
    (n1 n2 : ℕ) (i1 i2 : PredictionInput) (hne : n1 ≠ n2) :
    (transformBackendResponse risk1 rand1 n1 i1).id ≠
      (transformBackendResponse risk2 rand2 n2 i2).id := by
  show "pred-" ++ natDecimal n1 ≠ "pred-" ++ natDecimal n2
  intro h
  apply hne
  apply natDecimal_injective
  have hd := congrArg String.data h
  rw [String.data_append, String.data_append] at hd
  exact String.ext (List.append_cancel_left hd)

/-- Witness for prediction_id_distinct_times at timestamps 1 and 2. -/
theorem prediction_id_distinct_times_witness :
    (1 : ℕ) ≠ 2 ∧
    (transformBackendResponse 0 0 1 baseInput).id ≠
      (transformBackendResponse 0 0 2 baseInput).id :=
  ⟨by decide, prediction_id_distinct_times 0 0 0 0 1 2 baseInput baseInput (by decide)⟩

end Cardio
